import Mathlib

/-
  Verification of the promptvault Python SDK
  (src/python-sdk/promptvault/__init__.py).

  The module holds a process-wide configuration dictionary `_config`,
  a `configure` function, a `get_prompt` fetcher, and two proxy classes
  implementing dotted dynamic access.  We embed the module state as an
  explicit `Config` value, the HTTP transport as an oracle argument
  (`HttpResult`), and Python exceptions as a small inductive of the
  exception values the code can raise.  `get_prompt` returns both the
  list of HTTP requests it issued and its outcome, so that "no network
  request is attempted" is expressible.
-/

namespace PromptVault

/-- JSON values, as returned by `response.json()` in the Python code. -/
inductive Json where
  | null
  | bool (b : Bool)
  | num (n : Int)
  | str (s : String)
  | arr (elems : List Json)
  | obj (fields : List (String × Json))

/-- Python exceptions the module can raise.  The source raises
`ValueError(msg)` and `Exception(msg)` with f-string messages; the
interpreter itself raises `KeyError(key)` on a missing dict key and
`TypeError` on subscripting a non-dict JSON value. -/
inductive PyErr where
  | valueError (msg : String)
  | genericExc (msg : String)
  | keyError (key : String)
  | typeError
deriving DecidableEq

/-- The module-level `_config` dictionary: both entries start as `None`. -/
structure Config where
  base_url : Option String
  api_key : Option String
deriving DecidableEq

/-- Initial `_config = {'base_url': None, 'api_key': None}`. -/
def initConfig : Config := ⟨none, none⟩

/-- Python `s.rstrip('/')`: remove every trailing slash character. -/
def rstripSlash (s : String) : String :=
  String.mk ((s.data.reverse.dropWhile (fun c => c = '/')).reverse)

/-- The body of `configure(base_url, api_key)`: overwrite both entries,
stripping trailing slashes from `base_url`. -/
def configure (_cfg : Config) (base_url api_key : String) : Config :=
  { base_url := some (rstripSlash base_url), api_key := some api_key }

/-- Python truthiness of an `Optional[str]` value: `None` and the empty
string are falsy, every other string is truthy. -/
def truthy : Option String → Bool
  | none => false
  | some s => !s.isEmpty

/-- The guard of `get_prompt`: configured means both stored values truthy. -/
def configuredB (cfg : Config) : Bool :=
  truthy cfg.base_url && truthy cfg.api_key

/-- HTTP response as seen by the code: status, parsed JSON body, raw text. -/
structure Response where
  status : Nat
  body : Json
  text : String

/-- Outcome of the single `requests.get` call: either a response, or a
transport-level failure (`requests.exceptions.RequestException`). -/
inductive HttpResult where
  | ok (resp : Response)
  | transportError (cause : String)

/-- One outbound HTTP GET. -/
structure Request where
  url : String
  headers : List (String × String)
  params : List (String × String)
  timeout : Nat

/-- Python subscript `j[key]` on a parsed JSON value: a dict yields the
entry or raises `KeyError(key)`; any non-dict value raises `TypeError`. -/
def pySubscript (j : Json) (key : String) : Except PyErr Json :=
  match j with
  | .obj fields =>
    match fields.lookup key with
    | some v => .ok v
    | none => .error (.keyError key)
  | _ => .error .typeError

/-- The `params` dict built by `get_prompt`: `{'projectSlug': ...}`, and
`params['version'] = version` only when `if version:` is truthy. -/
def requestParams (project_slug : String) (version : Option Int) :
    List (String × String) :=
  [("projectSlug", project_slug)] ++
    (match version with
     | some v => if v = 0 then [] else [("version", toString v)]
     | none => [])

/-- The body of `get_prompt(slug, project_slug, version=None)`.  Returns
the list of HTTP requests issued together with the outcome: `Except.ok`
is the value returned (the Python code returns `response.json()['content']`
unchecked, hence a `Json`), `Except.error` the exception raised. -/
def get_prompt (cfg : Config) (slug project_slug : String)
    (version : Option Int) (http : HttpResult) :
    List Request × Except PyErr Json :=
  if !truthy cfg.base_url || !truthy cfg.api_key then
    ([], .error (.valueError
      "PromptVault not configured. Call promptvault.configure() first."))
  else
    let url := cfg.base_url.getD "" ++ "/api/prompts/" ++ slug
    let headers := [("x-api-key", cfg.api_key.getD "")]
    let params := requestParams project_slug version
    ([⟨url, headers, params, 10⟩],
      match http with
      | .transportError cause =>
          .error (.genericExc ("Network error: " ++ cause))
      | .ok resp =>
          if resp.status = 200 then
            pySubscript resp.body "content"
          else if resp.status = 401 then
            .error (.valueError "Invalid API key")
          else if resp.status = 404 then
            .error (.valueError
              ("Prompt '" ++ slug ++ "' not found in project '"
                ++ project_slug ++ "'"))
          else if resp.status = 403 then
            .error (.valueError "Access denied to this project")
          else
            .error (.genericExc
              ("API error: " ++ toString resp.status ++ " - " ++ resp.text)))

/-- Python `name.replace('_', '-')` for a single-character pattern. -/
def kebab (name : String) : String :=
  String.mk (name.data.map (fun c => if c = '_' then '-' else c))

/-- A `PromptProxy` instance: holds the already-rewritten project slug. -/
structure PromptProxy where
  _project_slug : String

/-- The body of `PromptVaultModule.__getattr__`: rewrite underscores to
hyphens and build a proxy bound to that project slug. -/
def moduleGetattr (name : String) : PromptProxy :=
  ⟨kebab name⟩

/-- The body of `PromptProxy.__getattr__`: rewrite underscores to hyphens
and immediately fetch, with no version argument. -/
def PromptProxy.getattr (p : PromptProxy) (cfg : Config) (name : String)
    (http : HttpResult) : List Request × Except PyErr Json :=
  get_prompt cfg (kebab name) p._project_slug none http

/-- A sequence of `configure` calls applied in order to a starting state. -/
def applyConfigures (c0 : Config) (calls : List (String × String)) : Config :=
  calls.foldl (fun c p => configure c p.1 p.2) c0

/-- A concrete configured state used by witnesses. -/
def cfgW : Config := configure initConfig "https://example.test" "key123"

/- ------------------------------------------------------------------ -/
/- Helper lemmas                                                       -/
/- ------------------------------------------------------------------ -/

theorem dropWhile_head?_not (p : Char → Bool) :
    ∀ (l : List Char) (c : Char),
      (l.dropWhile p).head? = some c → p c = false := by
  intro l
  induction l with
  | nil => intro c h; simp [List.dropWhile] at h
  | cons a t ih =>
      intro c h
      by_cases hp : p a
      · exact ih c (by simpa [List.dropWhile, hp] using h)
      · have : a = c := by simpa [List.dropWhile, hp] using h
        subst this
        simpa using hp

theorem dropWhile_exists_replicate (l : List Char) :
    ∃ n, l = List.replicate n '/' ++ l.dropWhile (fun c => c = '/') := by
  induction l with
  | nil => exact ⟨0, rfl⟩
  | cons a t ih =>
      by_cases hp : a = '/'
      · obtain ⟨n, hn⟩ := ih
        subst hp
        exact ⟨n + 1, by simpa [List.replicate, List.dropWhile] using hn⟩
      · exact ⟨0, by simp [List.dropWhile, hp]⟩

theorem rstripSlash_spec (s : String) :
    (∃ n, s.data = (rstripSlash s).data ++ List.replicate n '/')
      ∧ (∀ c, (rstripSlash s).data.getLast? = some c → c ≠ '/') := by
  constructor
  · obtain ⟨n, hn⟩ := dropWhile_exists_replicate s.data.reverse
    refine ⟨n, ?_⟩
    have := congrArg List.reverse hn
    simpa [rstripSlash, List.reverse_append, List.reverse_replicate] using this
  · intro c hc
    have hhead : (s.data.reverse.dropWhile (fun c => c = '/')).head? = some c := by
      simpa [rstripSlash, List.getLast?_reverse] using hc
    have := dropWhile_head?_not (fun c => c = '/') s.data.reverse c hhead
    simpa using this

/- ------------------------------------------------------------------ -/
/- Claims                                                              -/
/- ------------------------------------------------------------------ -/

/-- C2: for every choice of arguments, calling `get_prompt` on the initial
(never configured) state fails with the not-configured `ValueError` and
issues no HTTP request. -/
theorem get_prompt_unconfigured (slug ns : String) (version : Option Int)
    (http : HttpResult) :
    get_prompt initConfig slug ns version http =
      ([], .error (.valueError
        "PromptVault not configured. Call promptvault.configure() first.")) :=
  rfl

/-- C7: after any sequence of `configure` calls ending in
`configure(b, k)`, the stored state is exactly that of the last call alone
(independent of the start state and earlier calls); repeating the call
changes nothing; the stored `base_url` is `b` with its trailing slashes
stripped (a prefix of `b` followed by some number of slashes, itself not
ending in a slash) and `api_key` is stored unchanged. -/
theorem configure_last_call_wins (c0 : Config) (calls : List (String × String))
    (b k : String) :
    applyConfigures c0 (calls ++ [(b, k)]) = configure initConfig b k
      ∧ configure (configure c0 b k) b k = configure c0 b k
      ∧ (applyConfigures c0 (calls ++ [(b, k)])).base_url
          = some (rstripSlash b)
      ∧ (applyConfigures c0 (calls ++ [(b, k)])).api_key = some k
      ∧ (∃ n, b.data = (rstripSlash b).data ++ List.replicate n '/')
      ∧ (∀ c, (rstripSlash b).data.getLast? = some c → c ≠ '/') := by
  refine ⟨?_, rfl, ?_, ?_, (rstripSlash_spec b).1, (rstripSlash_spec b).2⟩
  · simp [applyConfigures, configure]
  · simp [applyConfigures, configure]
  · simp [applyConfigures, configure]

/-- C1: for every configured client, slug and namespace, a 200 response
whose JSON body is an object whose `content` field holds the string `X`
makes `get_prompt` return exactly `X`, untransformed. -/
theorem get_prompt_200_returns_content (cfg : Config)
    (hcfg : configuredB cfg = true) (slug ns txt X : String)
    (version : Option Int) (fields : List (String × Json))
    (hX : fields.lookup "content" = some (.str X)) :
    (get_prompt cfg slug ns version (.ok ⟨200, .obj fields, txt⟩)).2
      = .ok (.str X) := by
  simp only [configuredB, Bool.and_eq_true] at hcfg
  simp [get_prompt, hcfg.1, hcfg.2, pySubscript, hX]

/-- Witness for C1 at a concrete configured state and body. -/
theorem get_prompt_200_returns_content_witness :
    configuredB cfgW = true
      ∧ ([("content", Json.str "Hello")] : List (String × Json)).lookup "content"
          = some (.str "Hello")
      ∧ (get_prompt cfgW "my-prompt" "my-project" none
          (.ok ⟨200, .obj [("content", Json.str "Hello")], "body"⟩)).2
          = .ok (.str "Hello") :=
  ⟨rfl, rfl,
    get_prompt_200_returns_content cfgW rfl "my-prompt" "my-project" "body"
      "Hello" none [("content", Json.str "Hello")] rfl⟩

/-- C9: if `configure` was called with an empty `base_url` or an empty
`api_key`, every subsequent `get_prompt` still fails with the
not-configured error and issues no HTTP request: configuredness is the
truthiness of the stored values. -/
theorem get_prompt_falsy_configure (b k slug ns : String)
    (version : Option Int) (http : HttpResult) (h : b = "" ∨ k = "") :
    get_prompt (configure initConfig b k) slug ns version http =
      ([], .error (.valueError
        "PromptVault not configured. Call promptvault.configure() first.")) := by
  rcases h with h | h <;> subst h
  · have hb : truthy (some (rstripSlash "")) = false := rfl
    simp [get_prompt, configure, hb]
  · have hk : truthy (some "") = false := rfl
    simp [get_prompt, configure, hk]

/-- Witness for C9 on an empty base URL. -/
theorem get_prompt_falsy_configure_witness :
    (("" : String) = "" ∨ ("key123" : String) = "")
      ∧ get_prompt (configure initConfig "" "key123") "my-prompt"
          "my-project" none (.ok ⟨200, .null, ""⟩) =
        ([], .error (.valueError
          "PromptVault not configured. Call promptvault.configure() first.")) :=
  ⟨Or.inl rfl,
    get_prompt_falsy_configure "" "key123" "my-prompt" "my-project" none
      (.ok ⟨200, .null, ""⟩) (Or.inl rfl)⟩

/-- C6: for a configured client, the `version` query parameter is present
exactly when `version` is provided and non-falsy — `version=v` with value
`str(v)` when `v ≠ 0`, and absent entirely (not empty, not None) both when
version is omitted and when it is the falsy `0`. -/
theorem get_prompt_version_query (cfg : Config)
    (hcfg : configuredB cfg = true) (slug ns : String)
    (http : HttpResult) (v : Int) (hv : v ≠ 0) :
    (∃ req, (get_prompt cfg slug ns (some v) http).1 = [req]
        ∧ req.params = [("projectSlug", ns), ("version", toString v)])
      ∧ (∃ req, (get_prompt cfg slug ns none http).1 = [req]
          ∧ req.params = [("projectSlug", ns)]
          ∧ req.params.lookup "version" = none)
      ∧ (∃ req, (get_prompt cfg slug ns (some 0) http).1 = [req]
          ∧ req.params = [("projectSlug", ns)]) := by
  simp only [configuredB, Bool.and_eq_true] at hcfg
  refine ⟨⟨⟨cfg.base_url.getD "" ++ "/api/prompts/" ++ slug,
            [("x-api-key", cfg.api_key.getD "")],
            [("projectSlug", ns), ("version", toString v)], 10⟩, ?_, rfl⟩,
          ⟨⟨cfg.base_url.getD "" ++ "/api/prompts/" ++ slug,
            [("x-api-key", cfg.api_key.getD "")],
            [("projectSlug", ns)], 10⟩, ?_, rfl, rfl⟩,
          ⟨⟨cfg.base_url.getD "" ++ "/api/prompts/" ++ slug,
            [("x-api-key", cfg.api_key.getD "")],
            [("projectSlug", ns)], 10⟩, ?_, rfl⟩⟩ <;>
    simp [get_prompt, hcfg.1, hcfg.2, requestParams, hv]

/-- Witness for C6 at version 2. -/
theorem get_prompt_version_query_witness :
    configuredB cfgW = true ∧ (2 : Int) ≠ 0
      ∧ ((∃ req, (get_prompt cfgW "my-prompt" "my-project" (some 2)
              (.ok ⟨200, .null, ""⟩)).1 = [req]
            ∧ req.params = [("projectSlug", "my-project"), ("version", "2")])
        ∧ (∃ req, (get_prompt cfgW "my-prompt" "my-project" none
              (.ok ⟨200, .null, ""⟩)).1 = [req]
            ∧ req.params = [("projectSlug", "my-project")]
            ∧ req.params.lookup "version" = none)
        ∧ (∃ req, (get_prompt cfgW "my-prompt" "my-project" (some 0)
              (.ok ⟨200, .null, ""⟩)).1 = [req]
            ∧ req.params = [("projectSlug", "my-project")])) :=
  ⟨rfl, by decide,
    get_prompt_version_query cfgW rfl "my-prompt" "my-project"
      (.ok ⟨200, .null, ""⟩) 2 (by decide)⟩

/-- C8: for a configured client, a transport-level failure with cause `e`
makes `get_prompt` fail with the network-error exception whose message
wraps `e`, and with no other outcome. -/
theorem get_prompt_transport_failure (cfg : Config)
    (hcfg : configuredB cfg = true) (slug ns : String)
    (version : Option Int) (cause : String) :
    (get_prompt cfg slug ns version (.transportError cause)).2
        = .error (.genericExc ("Network error: " ++ cause))
      ∧ List.IsInfix cause.data ("Network error: " ++ cause).data := by
  simp only [configuredB, Bool.and_eq_true] at hcfg
  refine ⟨?_, "Network error: ".data, [], ?_⟩
  · simp [get_prompt, hcfg.1, hcfg.2]
  · simp [String.data_append]

/-- Witness for C8 at a concrete timeout cause. -/
theorem get_prompt_transport_failure_witness :
    configuredB cfgW = true
      ∧ (get_prompt cfgW "my-prompt" "my-project" none
          (.transportError "ConnectTimeout")).2
        = .error (.genericExc "Network error: ConnectTimeout") :=
  ⟨rfl,
    (get_prompt_transport_failure cfgW rfl "my-prompt" "my-project" none
      "ConnectTimeout").1⟩

/-- Helper: subscripting any non-object JSON value raises TypeError. -/
theorem pySubscript_nonObj (j : Json) (key : String)
    (h : ∀ fs, j ≠ Json.obj fs) :
    pySubscript j key = .error .typeError := by
  cases j with
  | obj fs => exact absurd rfl (h fs)
  | null => rfl
  | bool b => rfl
  | num n => rfl
  | str s => rfl
  | arr es => rfl

/-- C3: for a configured client, status 401 maps to the invalid-credentials
error, status 404 to the not-found error whose message carries both the
slug and the namespace, and any other non-200 status outside the
taxonomy's dedicated branches (401, 403, 404) to the API error carrying
the status code and the raw body text. -/
theorem get_prompt_status_mapping (cfg : Config)
    (hcfg : configuredB cfg = true) (slug ns txt : String) (body : Json)
    (version : Option Int) (status : Nat) :
    (status = 401 →
        (get_prompt cfg slug ns version (.ok ⟨status, body, txt⟩)).2
          = .error (.valueError "Invalid API key"))
    ∧ (status = 404 →
        (get_prompt cfg slug ns version (.ok ⟨status, body, txt⟩)).2
          = .error (.valueError ("Prompt '" ++ slug ++ "' not found in project '"
              ++ ns ++ "'"))
        ∧ List.IsInfix slug.data
            ("Prompt '" ++ slug ++ "' not found in project '" ++ ns ++ "'").data
        ∧ List.IsInfix ns.data
            ("Prompt '" ++ slug ++ "' not found in project '" ++ ns ++ "'").data)
    ∧ (status ≠ 200 → status ≠ 401 → status ≠ 403 → status ≠ 404 →
        (get_prompt cfg slug ns version (.ok ⟨status, body, txt⟩)).2
          = .error (.genericExc
              ("API error: " ++ toString status ++ " - " ++ txt))) := by
  simp only [configuredB, Bool.and_eq_true] at hcfg
  refine ⟨?_, ?_, ?_⟩
  · intro h; subst h
    simp [get_prompt, hcfg.1, hcfg.2]
  · intro h; subst h
    refine ⟨by simp [get_prompt, hcfg.1, hcfg.2], ?_, ?_⟩
    · exact ⟨"Prompt '".data, ("' not found in project '" ++ ns ++ "'").data,
        by simp [String.data_append]⟩
    · exact ⟨("Prompt '" ++ slug ++ "' not found in project '").data, "'".data,
        by simp [String.data_append]⟩
  · intro h200 h401 h403 h404
    simp [get_prompt, hcfg.1, hcfg.2, h200, h401, h403, h404]

/-- Witness for C3 at status 500. -/
theorem get_prompt_status_mapping_witness :
    configuredB cfgW = true ∧ (500 : Nat) ≠ 200
      ∧ (get_prompt cfgW "my-prompt" "my-project" none
          (.ok ⟨500, .null, "oops"⟩)).2
          = .error (.genericExc "API error: 500 - oops") :=
  ⟨rfl, by decide,
    (get_prompt_status_mapping cfgW rfl "my-prompt" "my-project" "oops" .null
        none 500).2.2 (by decide) (by decide) (by decide) (by decide)⟩

/-- C4 counterexample: the 403 branch raises a fixed message, so the
outcome is identical for two different namespaces and the namespace does
not occur in the error: the error cannot carry the requested namespace. -/
theorem get_prompt_403_ignores_namespace :
    (get_prompt cfgW "my-prompt" "ns-alpha" none (.ok ⟨403, .null, ""⟩)).2
        = (get_prompt cfgW "my-prompt" "ns-beta" none (.ok ⟨403, .null, ""⟩)).2
      ∧ ("ns-alpha" : String) ≠ "ns-beta"
      ∧ (get_prompt cfgW "my-prompt" "ns-alpha" none (.ok ⟨403, .null, ""⟩)).2
          = .error (.valueError "Access denied to this project")
      ∧ ¬ List.IsInfix ("ns-alpha" : String).data
          ("Access denied to this project" : String).data :=
  ⟨rfl, by decide, rfl, by decide⟩

/-- C4 amended: for every configured client, an HTTP 403 response makes
`get_prompt` fail with the access-denied error, whose fixed message is
independent of the requested namespace. -/
theorem get_prompt_403_access_denied (cfg : Config)
    (hcfg : configuredB cfg = true) (slug ns txt : String) (body : Json)
    (version : Option Int) :
    (get_prompt cfg slug ns version (.ok ⟨403, body, txt⟩)).2
      = .error (.valueError "Access denied to this project") := by
  simp only [configuredB, Bool.and_eq_true] at hcfg
  simp [get_prompt, hcfg.1, hcfg.2]

/-- Witness for the amended C4 at a concrete configured state. -/
theorem get_prompt_403_access_denied_witness :
    configuredB cfgW = true
      ∧ (get_prompt cfgW "my-prompt" "my-project" none
          (.ok ⟨403, .null, ""⟩)).2
          = .error (.valueError "Access denied to this project") :=
  ⟨rfl,
    get_prompt_403_access_denied cfgW rfl "my-prompt" "my-project" "" .null none⟩

/-- C5: for every pair of attribute names n and m, dotted access resolved
through the two `__getattr__` bodies performs exactly the fetch
`get_prompt` of m and n with underscores rewritten to hyphens and no
version parameter; the single issued request targets
`{base_url}/api/prompts/{kebab m}` with only the `projectSlug` parameter.
The spec's example names rewrite as required. -/
theorem dotted_access_fetches_kebab (cfg : Config)
    (hcfg : configuredB cfg = true) (n m : String) (http : HttpResult) :
    PromptProxy.getattr (moduleGetattr n) cfg m http
        = get_prompt cfg (kebab m) (kebab n) none http
      ∧ (PromptProxy.getattr (moduleGetattr n) cfg m http).1
          = [⟨cfg.base_url.getD "" ++ "/api/prompts/" ++ kebab m,
              [("x-api-key", cfg.api_key.getD "")],
              [("projectSlug", kebab n)], 10⟩]
      ∧ kebab "agents_lextenso" = "agents-lextenso"
      ∧ kebab "research_manager" = "research-manager" := by
  simp only [configuredB, Bool.and_eq_true] at hcfg
  refine ⟨rfl, ?_, by decide, by decide⟩
  simp [PromptProxy.getattr, moduleGetattr, get_prompt, hcfg.1, hcfg.2,
    requestParams]

/-- Witness for C5: the spec's example dotted access issues the expected
request against the concrete configured state. -/
theorem dotted_access_fetches_kebab_witness :
    configuredB cfgW = true
      ∧ (PromptProxy.getattr (moduleGetattr "agents_lextenso") cfgW
          "research_manager" (.ok ⟨200, .obj [("content", .str "P")], ""⟩)).1
        = [⟨"https://example.test/api/prompts/research-manager",
            [("x-api-key", "key123")],
            [("projectSlug", "agents-lextenso")], 10⟩] :=
  ⟨rfl,
    ((dotted_access_fetches_kebab cfgW rfl "agents_lextenso"
        "research_manager"
        (.ok ⟨200, .obj [("content", .str "P")], ""⟩)).2.1).trans rfl⟩

/-- C10 counterexample: a 200 response whose JSON body is an array (not an
object) makes `get_prompt` fail with TypeError, not with a KeyError. -/
theorem get_prompt_200_array_typeerror :
    (get_prompt cfgW "my-prompt" "my-project" none
        (.ok ⟨200, .arr [], "[]"⟩)).2 = .error .typeError
      ∧ (get_prompt cfgW "my-prompt" "my-project" none
          (.ok ⟨200, .arr [], "[]"⟩)).2 ≠ .error (.keyError "content") :=
  ⟨rfl, fun h => PyErr.noConfusion (Except.error.inj h)⟩

/-- C10 amended: for a configured client, a 200 response whose body is an
object lacking the `content` field fails with `KeyError('content')`, and
one whose body is not an object fails with `TypeError`; in both cases the
outcome is no string and none of the module's own raised errors. -/
theorem get_prompt_200_missing_content (cfg : Config)
    (hcfg : configuredB cfg = true) (slug ns txt : String)
    (version : Option Int) (fields : List (String × Json))
    (hmiss : fields.lookup "content" = none)
    (nonObj : Json) (hno : ∀ fs, nonObj ≠ Json.obj fs) :
    ((get_prompt cfg slug ns version (.ok ⟨200, .obj fields, txt⟩)).2
        = .error (.keyError "content"))
    ∧ ((get_prompt cfg slug ns version (.ok ⟨200, nonObj, txt⟩)).2
        = .error .typeError)
    ∧ (∀ s msg,
        (get_prompt cfg slug ns version (.ok ⟨200, .obj fields, txt⟩)).2 ≠ .ok s
        ∧ (get_prompt cfg slug ns version (.ok ⟨200, .obj fields, txt⟩)).2
            ≠ .error (.valueError msg)
        ∧ (get_prompt cfg slug ns version (.ok ⟨200, .obj fields, txt⟩)).2
            ≠ .error (.genericExc msg)
        ∧ (get_prompt cfg slug ns version (.ok ⟨200, nonObj, txt⟩)).2 ≠ .ok s
        ∧ (get_prompt cfg slug ns version (.ok ⟨200, nonObj, txt⟩)).2
            ≠ .error (.valueError msg)
        ∧ (get_prompt cfg slug ns version (.ok ⟨200, nonObj, txt⟩)).2
            ≠ .error (.genericExc msg)) := by
  simp only [configuredB, Bool.and_eq_true] at hcfg
  have h1 : (get_prompt cfg slug ns version (.ok ⟨200, .obj fields, txt⟩)).2
      = .error (.keyError "content") := by
    simp [get_prompt, hcfg.1, hcfg.2, pySubscript, hmiss]
  have h2 : (get_prompt cfg slug ns version (.ok ⟨200, nonObj, txt⟩)).2
      = .error .typeError := by
    simp [get_prompt, hcfg.1, hcfg.2, pySubscript_nonObj nonObj "content" hno]
  refine ⟨h1, h2, ?_⟩
  intro s msg
  rw [h1, h2]
  exact ⟨by simp, by simp, by simp, by simp, by simp, by simp⟩

/-- Witness for the amended C10 at concrete bodies. -/
theorem get_prompt_200_missing_content_witness :
    configuredB cfgW = true
      ∧ ([("other", Json.str "y")] : List (String × Json)).lookup "content"
          = none
      ∧ (get_prompt cfgW "my-prompt" "my-project" none
          (.ok ⟨200, .obj [("other", Json.str "y")], ""⟩)).2
          = .error (.keyError "content")
      ∧ (get_prompt cfgW "my-prompt" "my-project" none
          (.ok ⟨200, .str "plain", ""⟩)).2 = .error .typeError :=
  ⟨rfl, rfl,
    (get_prompt_200_missing_content cfgW rfl "my-prompt" "my-project" ""
        none [("other", Json.str "y")] rfl (.str "plain")
        (fun _ h => Json.noConfusion h)).1,
    (get_prompt_200_missing_content cfgW rfl "my-prompt" "my-project" ""
        none [("other", Json.str "y")] rfl (.str "plain")
        (fun _ h => Json.noConfusion h)).2.1⟩

end PromptVault
